import Mathlib

/-!
Verification of the proactive case-monitoring agent
(`ML/proactive_agent`): a shallow embedding of the pipeline,
extraction, search, Firestore and endpoint logic, with theorems about
the behaviour the specification describes.

External collaborators (Gemini, Pinecone, the Google search API, the
NER model, PyPDF2, the LangChain splitter) are modelled as oracles:
their responses are parameters, `Except` capturing a raised exception.
Everything computed by this repository's own code is translated
directly from the source.
-/

namespace LawyerUp

/-! ### String primitives

The Python string methods the code relies on (`strip`, `lower`,
`upper`, `split`, slicing, `endswith`), written by structural
recursion over the character list so that every definition in this
file is executable. -/

/-- Python `str.strip()`: drop whitespace from both ends. -/
def pyStrip (s : String) : String :=
  ⟨(((s.data.dropWhile Char.isWhitespace).reverse).dropWhile
      Char.isWhitespace).reverse⟩

/-- Python `str.lower()`. -/
def pyLower (s : String) : String := ⟨s.data.map Char.toLower⟩

/-- Python `str.upper()`. -/
def pyUpper (s : String) : String := ⟨s.data.map Char.toUpper⟩

/-- Python `s[:n]` (character slicing). -/
def pyTake (s : String) (n : Nat) : String := ⟨s.data.take n⟩

/-- Python `str.endswith(suffix)`. -/
def pyEndsWith (s suf : String) : Bool :=
  suf.data.reverse.isPrefixOf s.data.reverse

/-- Splitting a character list at commas; `Python "".split(",")` is
`[""]`, so the empty list maps to one empty piece. -/
def splitAtComma : List Char → List (List Char)
  | [] => [[]]
  | c :: rest =>
    let r := splitAtComma rest
    if c = ',' then [] :: r
    else
      match r with
      | [] => [[c]]
      | h :: t => (c :: h) :: t

/-- Python `s.split(",")`. -/
def pySplitOnComma (s : String) : List String :=
  (splitAtComma s.data).map (fun cs => ⟨cs⟩)

/-! ### Data model: articles, briefings, Pinecone matches, alerts
(`pipeline.py`, `gemini_service.py`, `pinecone_service.py`) -/

/-- An article as produced by `scan_public_sources` and consumed by the
analysis pipeline: title / link / snippet. -/
structure Article where
  title : String
  link : String
  snippet : String
deriving DecidableEq, Inhabited

/-- A briefing produced by `summarize_articles` (gemini_service.py,
lines 156-161). -/
structure Briefing where
  title : String
  link : String
  original_snippet : String
  summary : String
deriving DecidableEq, Inhabited

/-- A raw match as returned by `index.query` inside `query_pinecone`:
id, score and the metadata fields the code reads.  Scores are modelled
as rationals. -/
structure RawMatch where
  id : String
  score : ℚ
  metadata_text : String
  metadata_source : String
deriving DecidableEq, Inhabited

/-- A filtered match as built by `query_pinecone`
(pinecone_service.py, lines 139-145). -/
structure Match where
  document_id : String
  score : ℚ
  text : String
  source : String
deriving DecidableEq, Inhabited

/-- A related-document reference stored inside an alert
(pipeline.py, lines 410-417). -/
structure RelatedDoc where
  document_id : String
  relevance_score : ℚ
  source : String
deriving DecidableEq, Inhabited

/-- The alert payload persisted by `save_alert_to_firestore`
(pipeline.py, lines 405-419). -/
structure AlertData where
  title : String
  article_link : String
  summary : String
  impact_analysis : String
  related_documents : List RelatedDoc
  priority : String
deriving DecidableEq, Inhabited

/-- The per-alert entry appended to `alerts_created`
(pipeline.py, lines 423-428). -/
structure AlertEntry where
  alert_id : String
  title : String
  priority : String
  related_docs_count : Nat
deriving DecidableEq, Inhabited

/-! ### Pinecone query (pinecone_service.py, `query_pinecone`) -/

/-- `query_pinecone`: the raw query result is an oracle (`.error` when
`index.query` raises, in which case the `except` branch returns `[]`);
matches with `score >= score_threshold` are kept and reshaped
(pinecone_service.py, lines 123-155). -/
def query_pinecone (raw : Except String (List RawMatch)) (score_threshold : ℚ) :
    List Match :=
  match raw with
  | .error _ => []
  | .ok results =>
    (results.filter (fun m => score_threshold ≤ m.score)).map
      (fun m => { document_id := m.id, score := m.score,
                  text := m.metadata_text, source := m.metadata_source })

/-! ### Gemini impact analysis (gemini_service.py,
`generate_actionable_alert`) -/

/-- Whether the upper-cased response contains the `NO_IMPACT` sentinel
(gemini_service.py, line 234: `"NO_IMPACT" in impact_text.upper()`). -/
def impactContainsSentinel (impact_text : String) : Bool :=
  decide (List.IsInfix ("NO_IMPACT".data) (pyUpper impact_text).data)

/-- `generate_actionable_alert`: the Gemini response is an oracle
(`.error` when `generate_content` raises, caught to return `None`);
the trimmed text is discarded when it contains the sentinel or is
shorter than 50 characters (gemini_service.py, lines 230-243). -/
def generate_actionable_alert (resp : Except String String) : Option String :=
  match resp with
  | .error _ => none
  | .ok response_text =>
    let impact_text := pyStrip response_text
    if impactContainsSentinel impact_text || impact_text.length < 50 then none
    else some impact_text

/-! ### Priority heuristic (pipeline.py, lines 401-403) -/

/-- The priority computed before saving an alert:
`'high' if (len(pinecone_matches) > 1 and avg_score > 0.8) else 'medium'`
with `avg_score = sum(m['score'] for m in pinecone_matches) / len(pinecone_matches)`. -/
def priority_of (pinecone_matches : List Match) : String :=
  let avg_score : ℚ :=
    (pinecone_matches.map (fun m => m.score)).sum / (pinecone_matches.length : ℚ)
  if 1 < pinecone_matches.length ∧ (mkRat 8 10) < avg_score then "high" else "medium"

/-! ### Per-article oracles and the analysis loop (pipeline.py,
`run_article_analysis_pipeline`, lines 284-450) -/

/-- The external responses an article's processing consumes, one field
per downstream call.  `.error` models the call raising an exception. -/
structure ArticleOracle where
  summarize : Except String String
  embedding : Except String (List ℚ)
  raw_matches : Except String (List RawMatch)
  impact_resp : Except String String
  save : Except String String
deriving Inhabited

/-- `summarize_articles` (gemini_service.py, lines 112-170): each
article is summarized inside its own try/except; a raised exception
logs and `continue`s, so the briefing list keeps only the successes.
The oracle travels with each article so its later calls stay paired. -/
def summarize_articles (l : List (ArticleOracle × Article)) :
    List (ArticleOracle × Briefing) :=
  l.filterMap (fun p =>
    match p.1.summarize with
    | .error _ => none
    | .ok t => some (p.1, { title := p.2.title, link := p.2.link,
                            original_snippet := p.2.snippet, summary := pyStrip t }))

/-- One iteration of the briefing loop (pipeline.py, lines 346-434):
embed, query Pinecone (threshold 0.7), skip on no matches, run impact
analysis, skip on `None`, build the alert and save it.  `.error` is an
exception reaching the per-briefing `except` clause; `.ok none` is a
skip; `.ok (some _)` carries the persisted alert data and the entry
appended to `alerts_created`. -/
def processBriefing (o : ArticleOracle) (b : Briefing) :
    Except String (Option (AlertData × AlertEntry)) :=
  match o.embedding with
  | .error e => .error e
  | .ok _query_vector =>
    let pinecone_matches := query_pinecone o.raw_matches (mkRat 7 10)
    if pinecone_matches.isEmpty then .ok none
    else
      match generate_actionable_alert o.impact_resp with
      | none => .ok none
      | some impact_analysis =>
        let priority := priority_of pinecone_matches
        let alert_data : AlertData :=
          { title := b.title, article_link := b.link, summary := b.summary,
            impact_analysis := impact_analysis,
            related_documents := pinecone_matches.map (fun m =>
              { document_id := m.document_id, relevance_score := m.score,
                source := m.source }),
            priority := priority }
        match o.save with
        | .error e => .error e
        | .ok alert_id =>
          .ok (some (alert_data,
            { alert_id := alert_id, title := b.title, priority := priority,
              related_docs_count := pinecone_matches.length }))

/-- The loop over briefings: a briefing whose processing raises is
caught, logged and skipped (`continue`); otherwise its alert, if any,
is appended (pipeline.py, lines 344-434). -/
def processAll (briefings : List (ArticleOracle × Briefing)) :
    List (AlertData × AlertEntry) :=
  briefings.filterMap (fun p =>
    match processBriefing p.1 p.2 with
    | .ok (some x) => some x
    | _ => none)

/-- The result dictionary of `run_article_analysis_pipeline`
(pipeline.py, lines 317-322 and 439-445). -/
structure AnalysisResult where
  success : Bool
  articles_analyzed : Nat
  alerts_created : Nat
  alerts : List AlertEntry
  error : Option String
deriving DecidableEq, Inhabited

/-- `run_article_analysis_pipeline` (pipeline.py, lines 284-450):
summarize, then process each briefing; the second component collects
every alert payload persisted via `save_alert_to_firestore`.  The
early return on an empty briefing list coincides with the general
formula (success `True`, no alerts). -/
def run_article_analysis_pipeline (l : List (ArticleOracle × Article)) :
    AnalysisResult × List AlertData :=
  let briefings := summarize_articles l
  let processed := processAll briefings
  ({ success := true, articles_analyzed := briefings.length,
     alerts_created := processed.length,
     alerts := processed.map (fun x => x.2), error := none },
   processed.map (fun x => x.1))

/-! ### Extraction service (extraction_service.py) -/

/-- The dictionary returned by `run_extraction_pipeline`
(extraction_service.py, lines 169-174). -/
structure ExtractionResult where
  full_text : String
  extracted_search_terms : List String
  entity_count : Nat
  concept_count : Nat
deriving DecidableEq, Inhabited

/-- Order-preserving first-occurrence deduplication, the effect of
`list(dict.fromkeys(...))` (extraction_service.py, line 116). -/
def dedupFirst (l : List String) : List String :=
  l.foldl (fun acc e => if e ∈ acc then acc else acc ++ [e]) []

/-- `extract_legal_entities` (extraction_service.py, lines 97-122): the
NER pipeline is an oracle yielding the `word` field of each raw entity
(`.error` models a raised exception, caught to return `[]`); words are
stripped, kept when longer than 3 characters, and deduplicated. -/
def extract_legal_entities (ner_results : Except String (List String)) :
    List String :=
  match ner_results with
  | .error _ => []
  | .ok words =>
    let filtered_entities :=
      (words.map (fun w => pyStrip w)).filter (fun w => 3 < w.length)
    dedupFirst filtered_entities

/-- `get_legal_concepts` (gemini_service.py, lines 53-107): the Gemini
response text is an oracle (`.error` caught to return `[]`); the
trimmed text is split on commas, each piece stripped, empties dropped,
and at most 15 kept. -/
def get_legal_concepts (resp : Except String String) : List String :=
  match resp with
  | .error _ => []
  | .ok response_text =>
    let concepts_text := pyStrip response_text
    (((pySplitOnComma concepts_text).map (fun c => pyStrip c)).filter
      (fun c => c != "")).take 15

/-- One iteration of the dedup loop of `run_extraction_pipeline`
(extraction_service.py, lines 160-164): the accumulator is the pair
(`seen`, `final_terms`); a term is kept when its stripped-lowercased
key is unseen and the term itself is longer than 2 characters. -/
def dedupStep (acc : List String × List String) (term : String) :
    List String × List String :=
  let t := pyLower (pyStrip term)
  if t ∉ acc.1 ∧ 2 < term.length then (t :: acc.1, acc.2 ++ [term])
  else acc

/-- Step 4 of `run_extraction_pipeline` (extraction_service.py, lines
158-164). -/
def combine_and_dedup (all_terms : List String) : List String :=
  (all_terms.foldl dedupStep ([], [])).2

/-- `run_extraction_pipeline` (extraction_service.py, lines 129-181).
`full_text_raw` is the PDF text oracle (already the output of
`extract_text_from_pdf`, which strips the accumulated page text);
a text that is empty or shorter than 100 characters raises. -/
def run_extraction_pipeline (full_text_raw : String)
    (ner_results : Except String (List String))
    (gemini_resp : Except String String) : Except String ExtractionResult :=
  let full_text := full_text_raw
  if full_text = "" ∨ full_text.length < 100 then
    .error "PDF text extraction failed or document too short"
  else
    let ner_entities := extract_legal_entities ner_results
    let gemini_concepts := get_legal_concepts gemini_resp
    let all_terms := ner_entities ++ gemini_concepts
    let final_terms := combine_and_dedup all_terms
    .ok { full_text := full_text, extracted_search_terms := final_terms,
          entity_count := ner_entities.length,
          concept_count := gemini_concepts.length }

/-- `validate_extraction_results` (extraction_service.py, lines
188-198): the result dictionary always carries both keys here, so the
`not extraction_result` and missing-key cases reduce to the emptiness
tests the code performs. -/
def validate_extraction_results (extraction_result : ExtractionResult) :
    Bool × Option String :=
  if extraction_result.full_text = "" then
    (false, some "No text extracted from PDF")
  else if extraction_result.extracted_search_terms.length < 3 then
    (false, some "Too few search terms extracted (minimum 3 required)")
  else (true, none)

/-! ### Web search (google_service.py, `scan_public_sources`) -/

/-- One item of a search result page; the code reads `title`, `link`
and `snippet` with defaults (google_service.py, lines 138-143). -/
structure PageItem where
  title : Option String
  link : Option String
  snippet : Option String
deriving DecidableEq, Inhabited

/-- A page response oracle: `.error` models `execute()` raising (the
per-page `except` breaks the loop), `.ok none` a response without an
`items` key (also a break), `.ok (some items)` a page of items. -/
def FetchOracle : Type := String → Nat → Except String (Option (List PageItem))

/-- The search query built from the first 10 terms
(google_service.py, line 118). -/
def buildQuery (extracted_terms : List String) : String :=
  String.intercalate " OR "
    ((extracted_terms.take 10).map (fun term => "\"" ++ term ++ "\""))

/-- The pagination loop of `scan_public_sources` (google_service.py,
lines 126-152), recursing on the remaining page count
(`num_pages = (max_results + 9) // 10`).  A failed or item-less page
breaks; a full accumulator (`len(articles) >= max_results`) breaks. -/
def scanPages (fetch : FetchOracle) (query : String) (max_results : Nat) :
    Nat → Nat → List Article → List Article
  | 0, _, articles => articles
  | n + 1, page, articles =>
    let start_index := page * 10 + 1
    match fetch query start_index with
    | .error _ => articles
    | .ok none => articles
    | .ok (some items) =>
      let articles' := articles ++ items.map (fun item =>
        { title := item.title.getD "Untitled", link := item.link.getD "",
          snippet := item.snippet.getD "" })
      if max_results ≤ articles'.length then articles'
      else scanPages fetch query max_results n (page + 1) articles'

/-- Python-dict insertion: a present key keeps its position but takes
the new value, a new key is appended. -/
def dictInsert (d : List (String × Article)) (k : String) (v : Article) :
    List (String × Article) :=
  if d.any (fun p => p.1 = k) then
    d.map (fun p => if p.1 = k then (k, v) else p)
  else d ++ [(k, v)]

/-- The deduplication `list({a['link']: a for a in articles}.values())`
(google_service.py, line 154). -/
def dedupByLink (articles : List Article) : List Article :=
  (articles.foldl (fun d a => dictInsert d a.link a) []).map (fun p => p.2)

/-- `scan_public_sources` (google_service.py, lines 108-160): empty
term list returns `[]`; otherwise paginate, deduplicate by link, and
truncate to `max_results`. -/
def scan_public_sources (fetch : FetchOracle) (extracted_terms : List String)
    (_days_back : Nat) (max_results : Nat) : List Article :=
  if extracted_terms.isEmpty then []
  else
    let query := buildQuery extracted_terms
    let num_pages := (max_results + 10 - 1) / 10
    let articles := scanPages fetch query max_results num_pages 0 []
    let unique_articles := dedupByLink articles
    unique_articles.take max_results

/-! ### Firestore model (firebase_service.py) -/

/-- A profile document; `Option` fields model keys that may be absent
(`profile.get(key, default)` in the callers). -/
structure Profile where
  user_id : String
  monitored_doc_name : Option String
  doc_upload_limit : Option Int
  doc_upload_count : Option Int
  extracted_search_terms : Option (List String)
deriving DecidableEq, Inhabited

/-- A chunk vector as upserted into the Pinecone index
(pinecone_service.py, lines 85-99); the random uuid part of the id is
immaterial to the claims and omitted. -/
structure ChunkRecord where
  user_id : String
  source : String
  text : String
  chunk_index : Nat
  values : List ℚ
deriving DecidableEq, Inhabited

/-- The stored state the upload pipeline touches: the `profiles`
collection and the Pinecone index. -/
structure Store where
  profiles : List (String × Profile)
  chunks : List ChunkRecord
deriving DecidableEq, Inhabited

/-- First-match association lookup on a collection. -/
def findDoc {α : Type} (l : List (String × α)) (k : String) : Option α :=
  (l.find? (fun p => p.1 == k)).map (fun p => p.2)

/-- `create_default_profile` (firebase_service.py, lines 188-196). -/
def defaultProfile (user_id : String) : Profile :=
  { user_id := user_id, monitored_doc_name := none,
    doc_upload_limit := some 1, doc_upload_count := some 0,
    extracted_search_terms := some [] }

/-- `get_profile_from_firestore` (firebase_service.py, lines 100-144):
a missing profile is created lazily with the defaults and re-read. -/
def get_profile_from_firestore (s : Store) (user_id : String) :
    Profile × Store :=
  match findDoc s.profiles user_id with
  | some p => (p, s)
  | none =>
    let d := defaultProfile user_id
    (d, { s with profiles := s.profiles ++ [(user_id, d)] })

/-- The update dictionaries `update_profile_metadata` receives from the
upload pipeline; `none` means the key is not part of the update. -/
structure ProfileUpdates where
  monitored_doc_name : Option String := none
  extracted_search_terms : Option (List String) := none
  doc_upload_count : Option Int := none

/-- Applying an update dictionary to a profile document. -/
def applyProfileUpdates (p : Profile) (u : ProfileUpdates) : Profile :=
  { p with
    monitored_doc_name :=
      match u.monitored_doc_name with
      | some v => some v
      | none => p.monitored_doc_name,
    extracted_search_terms :=
      match u.extracted_search_terms with
      | some v => some v
      | none => p.extracted_search_terms,
    doc_upload_count :=
      match u.doc_upload_count with
      | some v => some v
      | none => p.doc_upload_count }

/-- `update_profile_metadata` (firebase_service.py, lines 147-173). -/
def update_profile_metadata (s : Store) (user_id : String)
    (u : ProfileUpdates) : Store :=
  { s with profiles := s.profiles.map (fun q =>
      if q.1 = user_id then (q.1, applyProfileUpdates q.2 u) else q) }

/-- `upsert_document_chunks` (pinecone_service.py, lines 75-116):
chunks with a `None` embedding are skipped, metadata text is truncated
to 1000 characters, and the count of upserted vectors is returned. -/
def upsert_document_chunks (s : Store) (user_id doc_name : String)
    (chunks : List String) (embeddings : List (Option (List ℚ))) :
    Nat × Store :=
  let vectors_to_upsert := (chunks.zip embeddings).enum.filterMap
    (fun pe =>
      match pe.2.2 with
      | none => none
      | some embedding =>
        some ({ user_id := user_id, source := doc_name,
                text := pyTake pe.2.1 1000, chunk_index := pe.1,
                values := embedding } : ChunkRecord))
  (vectors_to_upsert.length, { s with chunks := s.chunks ++ vectors_to_upsert })

/-! ### Case-file upload pipeline (pipeline.py,
`process_case_file_upload`, lines 30-199) -/

/-- The external responses the upload pipeline consumes:
the PDF text (PyPDF2), the NER words, the Gemini concepts response,
the LangChain chunker and the embedding batch. -/
structure UploadOracles where
  pdf_text : Except String String
  ner_results : Except String (List String)
  gemini_resp : Except String String
  chunking : String → List String
  embeddings : List String → List (Option (List ℚ))

/-- The extraction step as called by the pipeline: a raised
`extract_text_from_pdf` propagates, otherwise `run_extraction_pipeline`
runs on the extracted text. -/
def run_extraction_for (o : UploadOracles) : Except String ExtractionResult :=
  match o.pdf_text with
  | .error e => .error e
  | .ok t => run_extraction_pipeline t o.ner_results o.gemini_resp

/-- The result dictionary of `process_case_file_upload`
(pipeline.py, lines 64-70). -/
structure UploadResult where
  success : Bool
  doc_name : String
  extracted_terms_count : Nat
  chunks_indexed : Nat
  extracted_terms : List String
  error : Option String
deriving DecidableEq, Inhabited

/-- `process_case_file_upload` (pipeline.py, lines 30-199), translated
step by step; every raised exception lands in the outer `except` and
produces the current result with `error` set. -/
def process_case_file_upload (o : UploadOracles) (user_id : String)
    (filename : String) (s : Store) : UploadResult × Store :=
  let result0 : UploadResult :=
    { success := false, doc_name := filename, extracted_terms_count := 0,
      chunks_indexed := 0, extracted_terms := [], error := none }
  let step1 := get_profile_from_firestore s user_id
  let profile := step1.1
  let s1 := step1.2
  let upload_limit := profile.doc_upload_limit.getD 1
  let upload_count := profile.doc_upload_count.getD 0
  if upload_limit ≤ upload_count then
    ({ result0 with error := some ("Upload limit reached (" ++
        toString upload_count ++ "/" ++ toString upload_limit ++ ")") }, s1)
  else
    match run_extraction_for o with
    | .error e => ({ result0 with error := some e }, s1)
    | .ok extraction_result =>
      match validate_extraction_results extraction_result with
      | (false, error_msg) => ({ result0 with error := error_msg }, s1)
      | (true, _) =>
        let full_text := extraction_result.full_text
        let extracted_terms := extraction_result.extracted_search_terms
        let result1 := { result0 with
          extracted_terms := extracted_terms,
          extracted_terms_count := extracted_terms.length }
        let s2 := update_profile_metadata s1 user_id
          { monitored_doc_name := some filename,
            extracted_search_terms := some extracted_terms }
        let chunks := o.chunking full_text
        let embeddings := o.embeddings chunks
        let valid_pairs := (chunks.zip embeddings).filterMap
          (fun ce => ce.2.map (fun e => (ce.1, e)))
        if valid_pairs.isEmpty then
          ({ result1 with
             error := some "Failed to generate embeddings for document chunks" },
           s2)
        else
          let step6 := upsert_document_chunks s2 user_id filename
            (valid_pairs.map (fun p => p.1))
            (valid_pairs.map (fun p => some p.2))
          let chunks_indexed := step6.1
          let s3 := step6.2
          let result2 := { result1 with chunks_indexed := chunks_indexed }
          let s4 := update_profile_metadata s3 user_id
            { doc_upload_count := some (upload_count + 1) }
          ({ result2 with success := true }, s4)

/-! ### Authentication (firebase_service.py, `verify_token`) -/

/-- `verify_token` as it stands in the source (firebase_service.py,
lines 54-55): the whole verification body is commented out and the
function unconditionally returns the fixed user id, so it never
raises. -/
def verify_token {α : Type} (_request : α) : Except String String :=
  .ok "test_user_local"

/-! ### Request-body values (the JSON payloads the endpoints parse) -/

/-- A Python value as it reaches the validators from `request.json`. -/
inductive PyVal where
  | pynone : PyVal
  | pystr : String → PyVal
  | pyint : Int → PyVal
  | pylist : List PyVal → PyVal
  | pydict : List (String × PyVal) → PyVal
deriving Inhabited

/-- Python truthiness for the values above. -/
def pyTruthy : PyVal → Bool
  | .pynone => false
  | .pystr s => s != ""
  | .pyint n => n != 0
  | .pylist xs => !xs.isEmpty
  | .pydict fs => !fs.isEmpty

/-- `isinstance(v, str)`. -/
def pyIsStr : PyVal → Bool
  | .pystr _ => true
  | _ => false

/-- `isinstance(v, list)`. -/
def pyIsList : PyVal → Bool
  | .pylist _ => true
  | _ => false

/-- The elements of a list value (callers guard with `pyIsList`). -/
def pyListItems : PyVal → List PyVal
  | .pylist xs => xs
  | _ => []

/-- Dictionary key lookup (`field in article` / `article[field]`). -/
def pyLookup (fields : List (String × PyVal)) (key : String) : Option PyVal :=
  (fields.find? (fun p => p.1 == key)).map (fun p => p.2)

/-- `data.get(key, default)`: raises (`AttributeError`) on a non-dict
receiver, which the endpoint's outer `except` turns into a 500. -/
def pyGet (d : PyVal) (key : String) (dflt : PyVal) : Except String PyVal :=
  match d with
  | .pydict fs => .ok ((pyLookup fs key).getD dflt)
  | _ => .error "AttributeError"

/-! ### Input validation (pipeline.py, lines 457-524) -/

/-- An uploaded file as the upload endpoint sees it. -/
structure FileData where
  filename : String
  size : Nat
deriving DecidableEq, Inhabited

/-- `validate_case_upload_inputs` (pipeline.py, lines 457-485);
`user_id` arrives as a string, so the `isinstance` test reduces to the
truthiness test. -/
def validate_case_upload_inputs (user_id : String) (pdf_file : FileData) :
    Bool × Option String :=
  if user_id = "" then (false, some "Invalid user_id")
  else if pdf_file.filename = "" then (false, some "Invalid PDF file")
  else if !(pyEndsWith (pyLower pdf_file.filename) ".pdf") then
    (false, some "File must be a PDF")
  else if 10 * 1024 * 1024 < pdf_file.size then
    (false, some "PDF file too large (maximum 10MB)")
  else (true, none)

/-- The required article fields (pipeline.py, line 516). -/
def requiredFields : List String := ["title", "link", "snippet"]

/-- The inner field loop of `validate_article_analysis_inputs`
(pipeline.py, lines 516-522). -/
def checkFields (i : Nat) (fields : List (String × PyVal)) :
    List String → Option String
  | [] => none
  | f :: rest =>
    match pyLookup fields f with
    | none => some ("Article " ++ toString i ++ " missing required field: " ++ f)
    | some v =>
      if !(pyTruthy v) || !(pyIsStr v) then
        some ("Article " ++ toString i ++ " has invalid " ++ f)
      else checkFields i fields rest

/-- The article loop of `validate_article_analysis_inputs`
(pipeline.py, lines 512-522), returning the first error. -/
def checkArticles (i : Nat) : List PyVal → Option String
  | [] => none
  | article :: rest =>
    match article with
    | .pydict fields =>
      match checkFields i fields requiredFields with
      | some msg => some msg
      | none => checkArticles (i + 1) rest
    | _ => some ("Article " ++ toString i ++ " is not a valid dictionary")

/-- `validate_article_analysis_inputs` (pipeline.py, lines 488-524). -/
def validate_article_analysis_inputs (user_id articles : PyVal) :
    Bool × Option String :=
  if !(pyTruthy user_id) || !(pyIsStr user_id) then
    (false, some "Invalid user_id")
  else if !(pyTruthy articles) || !(pyIsList articles) then
    (false, some "Articles must be a non-empty list")
  else
    let xs := pyListItems articles
    if xs.length = 0 then (false, some "No articles provided for analysis")
    else if 20 < xs.length then
      (false, some "Too many articles (maximum 20 per request)")
    else
      match checkArticles 0 xs with
      | some msg => (false, some msg)
      | none => (true, none)

/-- The dictionary-validity test the claim describes for one entry:
a dictionary whose `title`, `link` and `snippet` are non-empty
strings. -/
def entryValid (article : PyVal) : Bool :=
  match article with
  | .pydict fields =>
    requiredFields.all (fun f =>
      match pyLookup fields f with
      | some (.pystr s) => s != ""
      | _ => false)
  | _ => false

/-! ### HTTP endpoints (app.py) -/

/-- An HTTP response as far as the claims observe it: status code, the
`success`/`error` envelope, and whether the pipeline behind the
endpoint was invoked. -/
structure HttpResponse where
  status : Nat
  success : Bool
  error : Option String
  pipelineRan : Bool
deriving DecidableEq, Inhabited

/-- A request to the upload endpoint: the credential header and
`request.files`. -/
structure UploadRequest where
  authHeader : Option String
  files : List (String × FileData)
deriving DecidableEq, Inhabited

/-- `upload_case_file` (app.py, lines 114-240): authenticate, check
the file, validate, run the pipeline, map the outcome to a status. -/
def upload_case_file (o : UploadOracles) (s : Store) (req : UploadRequest) :
    HttpResponse × Store :=
  match verify_token req with
  | .error e =>
    ({ status := 401, success := false, error := some e,
       pipelineRan := false }, s)
  | .ok user_id =>
    match findDoc req.files "file" with
    | none =>
      ({ status := 400, success := false,
         error := some "No file provided in request", pipelineRan := false }, s)
    | some file =>
      if file.filename = "" then
        ({ status := 400, success := false, error := some "Empty filename",
           pipelineRan := false }, s)
      else if !(pyEndsWith (pyLower file.filename) ".pdf") then
        ({ status := 400, success := false,
           error := some "Only PDF files are supported",
           pipelineRan := false }, s)
      else
        match validate_case_upload_inputs user_id file with
        | (false, error_msg) =>
          ({ status := 400, success := false, error := error_msg,
             pipelineRan := false }, s)
        | (true, _) =>
          let outcome := process_case_file_upload o user_id file.filename s
          let result := outcome.1
          if result.success then
            ({ status := 200, success := true, error := none,
               pipelineRan := true }, outcome.2)
          else
            ({ status := 500, success := false,
               error := some (result.error.getD "Unknown error occurred"),
               pipelineRan := true }, outcome.2)

/-- A request to the analyze endpoint: the credential header and
`request.json` (`none` when the body is not JSON). -/
structure AnalyzeRequest where
  authHeader : Option String
  json : Option PyVal
deriving Inhabited

/-- `data = request.json or {}` followed by
`articles = data.get('articles', [])` (app.py, lines 429-430). -/
def requestArticles (req : AnalyzeRequest) : Except String PyVal :=
  let data :=
    match req.json with
    | some v => if pyTruthy v then v else .pydict []
    | none => .pydict []
  pyGet data "articles" (.pylist [])

/-- `analyze_articles` (app.py, lines 369-487): authenticate, parse the
article list, validate, then run the analysis pipeline (abstracted by
`pipeline`, since claim C10 concerns the pre-pipeline path). -/
def analyze_articles (pipeline : List PyVal → AnalysisResult)
    (req : AnalyzeRequest) : HttpResponse :=
  match verify_token req with
  | .error e =>
    { status := 401, success := false, error := some e, pipelineRan := false }
  | .ok user_id =>
    match requestArticles req with
    | .error _ =>
      { status := 500, success := false,
        error := some "Internal server error. Please try again later.",
        pipelineRan := false }
    | .ok articles =>
      match validate_article_analysis_inputs (.pystr user_id) articles with
      | (false, error_msg) =>
        { status := 400, success := false, error := error_msg,
          pipelineRan := false }
      | (true, _) =>
        let result := pipeline (pyListItems articles)
        if result.success then
          { status := 200, success := true, error := none, pipelineRan := true }
        else
          { status := 500, success := false,
            error := some (result.error.getD "Unknown error occurred"),
            pipelineRan := true }

/-! ## Helper lemmas about the analysis pipeline -/

/-- The alerts persisted by a single-article pipeline run, by cases on
the summarization and processing outcomes. -/
theorem run_single_alerts (o : ArticleOracle) (a : Article) :
    (run_article_analysis_pipeline [(o, a)]).2 =
      match o.summarize with
      | .error _ => []
      | .ok t =>
        match processBriefing o
            { title := a.title, link := a.link,
              original_snippet := a.snippet, summary := pyStrip t } with
        | .ok (some x) => [x.1]
        | .ok none => []
        | .error _ => [] := by
  cases hs : o.summarize with
  | error e =>
    simp [run_article_analysis_pipeline, summarize_articles, processAll, hs]
  | ok t =>
    simp only [run_article_analysis_pipeline, summarize_articles,
      List.filterMap_cons, hs, List.filterMap_nil, processAll]
    generalize ({ title := a.title, link := a.link, original_snippet := a.snippet, summary := pyStrip t } : Briefing) = b
    cases hp : processBriefing o b with
    | error e => simp
    | ok v => cases v <;> simp

/-- On the success path, the saved alert's priority is computed by
`priority_of` over the threshold-filtered matches, those matches are
non-empty, and the impact analysis returned a statement. -/
theorem processBriefing_ok_some {o : ArticleOracle} {b : Briefing}
    {x : AlertData × AlertEntry}
    (h : processBriefing o b = .ok (some x)) :
    x.1.priority = priority_of (query_pinecone o.raw_matches (mkRat 7 10)) ∧
    query_pinecone o.raw_matches (mkRat 7 10) ≠ [] ∧
    (∃ imp, generate_actionable_alert o.impact_resp = some imp) ∧
    (∃ v, o.embedding = .ok v) ∧ (∃ i, o.save = .ok i) := by
  unfold processBriefing at h
  cases he : o.embedding with
  | error e => simp [he] at h
  | ok v =>
    simp only [he] at h
    cases hq : query_pinecone o.raw_matches (mkRat 7 10) with
    | nil => simp [hq] at h
    | cons m ms =>
      simp only [hq, List.isEmpty_cons, Bool.false_eq_true, if_false] at h
      cases hi : generate_actionable_alert o.impact_resp with
      | none => simp [hi] at h
      | some imp =>
        simp only [hi] at h
        cases hsv : o.save with
        | error e => simp [hsv] at h
        | ok alert_id =>
          simp only [hsv, Except.ok.injEq, Option.some.injEq] at h
          subst h
          exact ⟨rfl, by simp, ⟨imp, rfl⟩, ⟨v, rfl⟩, ⟨alert_id, rfl⟩⟩

/-- Membership in the persisted alerts of a single-article run comes
from a successful `processBriefing`. -/
theorem mem_run_single {o : ArticleOracle} {a : Article} {d : AlertData}
    (hd : d ∈ (run_article_analysis_pipeline [(o, a)]).2) :
    ∃ b x, processBriefing o b = .ok (some x) ∧ d = x.1 := by
  rw [run_single_alerts o a] at hd
  cases hs : o.summarize with
  | error e => simp [hs] at hd
  | ok t =>
    simp only [hs] at hd
    revert hd
    generalize ({ title := a.title, link := a.link, original_snippet := a.snippet, summary := pyStrip t } : Briefing) = b
    intro hd
    cases hp : processBriefing o b with
    | error e => simp [hp] at hd
    | ok v =>
      cases v with
      | none => simp [hp] at hd
      | some x =>
        simp only [hp, List.mem_singleton] at hd
        exact ⟨b, x, hp, hd⟩

/-- Every match surviving `query_pinecone` has a score at or above the
threshold. -/
theorem query_pinecone_scores {raw : Except String (List RawMatch)} {th : ℚ}
    {m : Match} (hm : m ∈ query_pinecone raw th) : th ≤ m.score := by
  unfold query_pinecone at hm
  cases raw with
  | error e => simp at hm
  | ok results =>
    simp only [List.mem_map, List.mem_filter] at hm
    obtain ⟨r, ⟨_, hr⟩, hmr⟩ := hm
    subst hmr
    simpa using hr

/-- A non-`None` impact analysis means the Gemini response did not
contain the `NO_IMPACT` sentinel. -/
theorem generate_some_no_sentinel {resp : Except String String} {imp : String}
    (h : generate_actionable_alert resp = some imp) :
    ∀ t, resp = .ok t → impactContainsSentinel (pyStrip t) = false := by
  intro t ht
  subst ht
  unfold generate_actionable_alert at h
  by_cases hs : impactContainsSentinel (pyStrip t)
  · simp [hs] at h
  · simpa using hs

/-- A sentinel-carrying response yields no impact analysis. -/
theorem sentinel_no_impact {resp : Except String String} {t : String}
    (ht : resp = Except.ok t) (hs : impactContainsSentinel (pyStrip t) = true) :
    generate_actionable_alert resp = none := by
  subst ht
  unfold generate_actionable_alert
  simp [hs]

/-- With no surviving matches or no impact statement, no alert is
created for a briefing. -/
theorem processBriefing_no_alert {o : ArticleOracle}
    (hyp : query_pinecone o.raw_matches (mkRat 7 10) = [] ∨
           generate_actionable_alert o.impact_resp = none)
    (b : Briefing) (x : AlertData × AlertEntry) :
    processBriefing o b ≠ .ok (some x) := by
  intro h
  obtain ⟨_, hne, ⟨imp, himp⟩, _⟩ := processBriefing_ok_some h
  rcases hyp with h1 | h1
  · exact hne h1
  · rw [h1] at himp
    exact Option.noConfusion himp

/-- C3: in the article analysis pipeline, an alert is persisted only
when the similarity query returned at least one match at or above the
0.7 threshold and the generative impact judgment is not the
`NO_IMPACT` sentinel; when either condition fails the article is
skipped and no alert is created (pipeline.py, lines 360-421;
gemini_service.py, lines 230-243; pinecone_service.py, lines
134-151). -/
theorem claim_C3 (o : ArticleOracle) (a : Article) :
    ((run_article_analysis_pipeline [(o, a)]).2 ≠ [] →
       (∃ m ∈ query_pinecone o.raw_matches (mkRat 7 10),
          (mkRat 7 10) ≤ m.score) ∧
       (∀ t, o.impact_resp = .ok t → impactContainsSentinel (pyStrip t) = false)) ∧
    ((query_pinecone o.raw_matches (mkRat 7 10) = [] ∨
       (∃ t, o.impact_resp = .ok t ∧ impactContainsSentinel (pyStrip t) = true)) →
      (run_article_analysis_pipeline [(o, a)]).2 = []) := by
  constructor
  · intro hne
    obtain ⟨d, hd⟩ := List.exists_mem_of_ne_nil _ hne
    obtain ⟨b, x, hp, hdx⟩ := mem_run_single hd
    obtain ⟨_, hqe, ⟨imp, himp⟩, _⟩ := processBriefing_ok_some hp
    constructor
    · obtain ⟨m, hm⟩ := List.exists_mem_of_ne_nil _ hqe
      exact ⟨m, hm, query_pinecone_scores hm⟩
    · intro t ht
      exact generate_some_no_sentinel himp t ht
  · intro hyp
    have hyp2 : query_pinecone o.raw_matches (mkRat 7 10) = [] ∨
        generate_actionable_alert o.impact_resp = none := by
      rcases hyp with h | ⟨t, ht, hs⟩
      · exact Or.inl h
      · exact Or.inr (sentinel_no_impact ht hs)
    rw [run_single_alerts o a]
    cases hsum : o.summarize with
    | error e => rfl
    | ok t =>
      simp only
      cases hp : processBriefing o ⟨a.title, a.link, a.snippet, pyStrip t⟩ with
      | error e => rfl
      | ok v =>
        cases v with
        | none => rfl
        | some x => exact absurd hp (processBriefing_no_alert hyp2 _ x)

/-- Every persisted alert of any run comes from some article of the
batch via a successful `processBriefing`. -/
theorem mem_run_general {l : List (ArticleOracle × Article)} {d : AlertData}
    (hd : d ∈ (run_article_analysis_pipeline l).2) :
    ∃ p ∈ l, ∃ b x, processBriefing p.1 b = .ok (some x) ∧ d = x.1 := by
  simp only [run_article_analysis_pipeline] at hd
  obtain ⟨x, hx, hdx⟩ := List.mem_map.mp hd
  simp only [processAll] at hx
  obtain ⟨pb, hpb, hgx⟩ := List.mem_filterMap.mp hx
  simp only [summarize_articles] at hpb
  obtain ⟨p, hp, hfp⟩ := List.mem_filterMap.mp hpb
  obtain ⟨po, pbr⟩ := pb
  cases hs : p.1.summarize with
  | error e =>
    rw [hs] at hfp
    exact absurd hfp (by simp)
  | ok t =>
    rw [hs] at hfp
    simp only [Option.some.injEq, Prod.mk.injEq] at hfp
    cases hg : processBriefing po pbr with
    | error e =>
      rw [hg] at hgx
      exact absurd hgx (by simp)
    | ok v =>
      cases v with
      | none =>
        rw [hg] at hgx
        exact absurd hgx (by simp)
      | some y =>
        rw [hg] at hgx
        simp only [Option.some.injEq] at hgx
        subst hgx
        exact ⟨p, hp, pbr, y, hfp.1 ▸ hg, hdx.symm⟩

/-- C4: every alert persisted by the analysis pipeline has priority
"high" iff more than one chunk matched for its article and the average
match score exceeds 0.8, and priority "medium" in every other case
(pipeline.py, lines 401-403). -/
theorem claim_C4 (l : List (ArticleOracle × Article)) (d : AlertData)
    (hd : d ∈ (run_article_analysis_pipeline l).2) :
    ∃ p ∈ l,
      (d.priority = "high" ↔
        (1 < (query_pinecone p.1.raw_matches (mkRat 7 10)).length ∧
         (mkRat 8 10) <
           ((query_pinecone p.1.raw_matches (mkRat 7 10)).map
              (fun m => m.score)).sum /
             ((query_pinecone p.1.raw_matches (mkRat 7 10)).length : ℚ))) ∧
      (¬(1 < (query_pinecone p.1.raw_matches (mkRat 7 10)).length ∧
         (mkRat 8 10) <
           ((query_pinecone p.1.raw_matches (mkRat 7 10)).map
              (fun m => m.score)).sum /
             ((query_pinecone p.1.raw_matches (mkRat 7 10)).length : ℚ)) →
        d.priority = "medium") := by
  obtain ⟨p, hp, b, x, hpb, hdx⟩ := mem_run_general hd
  refine ⟨p, hp, ?_⟩
  have hpr : d.priority =
      priority_of (query_pinecone p.1.raw_matches (mkRat 7 10)) := by
    rw [hdx]
    exact (processBriefing_ok_some hpb).1
  rw [hpr]
  simp only [priority_of]
  by_cases hc : (1 < (query_pinecone p.1.raw_matches (mkRat 7 10)).length ∧
      (mkRat 8 10) <
        ((query_pinecone p.1.raw_matches (mkRat 7 10)).map
           (fun m => m.score)).sum /
          ((query_pinecone p.1.raw_matches (mkRat 7 10)).length : ℚ))
  · rw [if_pos hc]
    exact ⟨⟨fun _ => hc, fun _ => rfl⟩, fun hn => absurd hc hn⟩
  · rw [if_neg hc]
    exact ⟨⟨fun h => absurd h (by decide), fun h => absurd h hc⟩, fun _ => rfl⟩

/-- C9: priority classification is deterministic: two match lists with
the same length and identical score lists are classified identically
(pipeline.py, lines 401-403). -/
theorem claim_C9 (ms1 ms2 : List Match) (hlen : ms1.length = ms2.length)
    (hscores : ms1.map (fun m => m.score) = ms2.map (fun m => m.score)) :
    priority_of ms1 = priority_of ms2 := by
  unfold priority_of
  rw [hscores, hlen]

/-- `summarize_articles` distributes over concatenation. -/
theorem summarize_articles_append (l₁ l₂ : List (ArticleOracle × Article)) :
    summarize_articles (l₁ ++ l₂) =
      summarize_articles l₁ ++ summarize_articles l₂ :=
  List.filterMap_append _ _ _

/-- `processAll` distributes over concatenation. -/
theorem processAll_append (l₁ l₂ : List (ArticleOracle × Briefing)) :
    processAll (l₁ ++ l₂) = processAll l₁ ++ processAll l₂ :=
  List.filterMap_append _ _ _

/-- A briefing whose downstream calls fail contributes no alert. -/
theorem processBriefing_not_created {o : ArticleOracle} {b : Briefing}
    {x : AlertData × AlertEntry}
    (hfail : (∃ e, o.embedding = .error e) ∨
             (∃ e, o.raw_matches = .error e) ∨
             (∃ e, o.impact_resp = .error e) ∨ (∃ e, o.save = .error e)) :
    processBriefing o b ≠ .ok (some x) := by
  intro h
  obtain ⟨_, hne, ⟨imp, himp⟩, ⟨v, hv⟩, ⟨i, hi⟩⟩ := processBriefing_ok_some h
  rcases hfail with ⟨e, he⟩ | ⟨e, he⟩ | ⟨e, he⟩ | ⟨e, he⟩
  · rw [he] at hv
    exact Except.noConfusion hv
  · rw [he] at hne
    exact hne rfl
  · rw [he] at himp
    simp [generate_actionable_alert] at himp
  · rw [he] at hi
    exact Except.noConfusion hi

/-- An article any of whose processing calls raises contributes
nothing to the batch. -/
theorem article_contributes_nothing {o : ArticleOracle} {b : Article}
    (hfail : (∃ e, o.summarize = .error e) ∨ (∃ e, o.embedding = .error e) ∨
             (∃ e, o.raw_matches = .error e) ∨
             (∃ e, o.impact_resp = .error e) ∨ (∃ e, o.save = .error e)) :
    processAll (summarize_articles [(o, b)]) = [] := by
  cases hs : o.summarize with
  | error e => simp [summarize_articles, processAll, hs]
  | ok t =>
    have hfail2 : (∃ e, o.embedding = .error e) ∨
        (∃ e, o.raw_matches = .error e) ∨
        (∃ e, o.impact_resp = .error e) ∨ (∃ e, o.save = .error e) := by
      rcases hfail with ⟨e, he⟩ | h | h | h | h
      · rw [he] at hs
        exact Except.noConfusion hs
      · exact Or.inl h
      · exact Or.inr (Or.inl h)
      · exact Or.inr (Or.inr (Or.inl h))
      · exact Or.inr (Or.inr (Or.inr h))
    simp only [summarize_articles, List.filterMap_cons, List.filterMap_nil, hs,
      processAll]
    cases hp : processBriefing o ⟨b.title, b.link, b.snippet, pyStrip t⟩ with
    | error e => simp [hp]
    | ok v =>
      cases v with
      | none => simp [hp]
      | some x => exact absurd hp (processBriefing_not_created hfail2)

/-- C8: an exception while processing a single article (summarization,
embedding, querying, impact analysis or saving) is caught, the article
is skipped, the remaining articles are processed unchanged, and the
pipeline still reports success (pipeline.py, lines 344-441;
gemini_service.py, lines 128-170). -/
theorem claim_C8 (l₁ l₂ : List (ArticleOracle × Article))
    (o : ArticleOracle) (b : Article)
    (hfail : (∃ e, o.summarize = .error e) ∨ (∃ e, o.embedding = .error e) ∨
             (∃ e, o.raw_matches = .error e) ∨
             (∃ e, o.impact_resp = .error e) ∨ (∃ e, o.save = .error e)) :
    (run_article_analysis_pipeline (l₁ ++ (o, b) :: l₂)).1.success = true ∧
    (run_article_analysis_pipeline (l₁ ++ (o, b) :: l₂)).2 =
      (run_article_analysis_pipeline l₁).2 ++
        (run_article_analysis_pipeline l₂).2 ∧
    (run_article_analysis_pipeline (l₁ ++ (o, b) :: l₂)).1.alerts =
      (run_article_analysis_pipeline l₁).1.alerts ++
        (run_article_analysis_pipeline l₂).1.alerts := by
  have hsplit : l₁ ++ (o, b) :: l₂ = l₁ ++ ([(o, b)] ++ l₂) := by simp
  have key : processAll (summarize_articles (l₁ ++ (o, b) :: l₂)) =
      processAll (summarize_articles l₁) ++
        processAll (summarize_articles l₂) := by
    rw [hsplit, summarize_articles_append, summarize_articles_append,
      processAll_append, processAll_append,
      article_contributes_nothing hfail]
    simp
  refine ⟨rfl, ?_, ?_⟩ <;>
    simp only [run_article_analysis_pipeline] <;>
    rw [key, List.map_append]

/-! ## Concrete witness data -/

/-- An impact statement of more than 50 characters without the
sentinel. -/
def impactText : String :=
  "Review the data retention clauses of the monitored agreements for compliance."

/-- An oracle on which every downstream call succeeds and two chunks
match above threshold. -/
def okOracle : ArticleOracle :=
  { summarize := .ok "A new ruling changes retention duties.",
    embedding := .ok [1],
    raw_matches := .ok
      [{ id := "d1", score := mkRat 9 10, metadata_text := "chunk one",
         metadata_source := "case.pdf" },
       { id := "d2", score := mkRat 85 100, metadata_text := "chunk two",
         metadata_source := "case.pdf" }],
    impact_resp := .ok impactText,
    save := .ok "alert-1" }

/-- The same oracle with the Firestore save raising. -/
def failingOracle : ArticleOracle := { okOracle with save := .error "firestore down" }

/-- The same oracle with no Pinecone matches. -/
def emptyMatchOracle : ArticleOracle := { okOracle with raw_matches := .ok [] }

/-- A sample article. -/
def sampleArticle : Article :=
  { title := "Ruling", link := "https://example.com/a", snippet := "snip" }

/-- The alert the all-success single-article run persists. -/
def alertHigh : AlertData :=
  ((run_article_analysis_pipeline [(okOracle, sampleArticle)]).2).headI

set_option maxRecDepth 100000 in
/-- Evaluation: the all-success run persists exactly one alert. -/
theorem run_okOracle_eval :
    (run_article_analysis_pipeline [(okOracle, sampleArticle)]).2 =
      [alertHigh] := rfl

/-- The two matches `okOracle` yields at the 0.7 threshold. -/
def okMatches : List Match :=
  [{ document_id := "d1", score := mkRat 9 10, text := "chunk one",
     source := "case.pdf" },
   { document_id := "d2", score := mkRat 85 100, text := "chunk two",
     source := "case.pdf" }]

/-- Evaluation of the Pinecone query of `okOracle`. -/
theorem okOracle_query_eval :
    query_pinecone okOracle.raw_matches (mkRat 7 10) = okMatches := by decide

/-- Witness for C3 at concrete inputs: the successful run persisted an
alert, hence its matches clear the threshold and the judgment avoided
the sentinel; and the no-match run persisted nothing. -/
theorem claim_C3_witness :
    ((∃ m ∈ query_pinecone okOracle.raw_matches (mkRat 7 10),
        (mkRat 7 10) ≤ m.score) ∧
     (∀ t, okOracle.impact_resp = .ok t →
        impactContainsSentinel (pyStrip t) = false)) ∧
    (run_article_analysis_pipeline [(emptyMatchOracle, sampleArticle)]).2 = [] :=
  ⟨(claim_C3 okOracle sampleArticle).1 (by rw [run_okOracle_eval]; simp),
   (claim_C3 emptyMatchOracle sampleArticle).2 (Or.inl rfl)⟩

/-- Witness for C4 at a concrete input: two matches averaging 0.875
give priority "high". -/
theorem claim_C4_witness : alertHigh.priority = "high" := by
  obtain ⟨p, hp, hiff, _⟩ := claim_C4 [(okOracle, sampleArticle)] alertHigh
    (by rw [run_okOracle_eval]; simp)
  rw [List.mem_singleton] at hp
  subst hp
  refine hiff.mpr ⟨by decide, ?_⟩
  rw [okOracle_query_eval]
  norm_num [okMatches, Rat.mkRat_eq_div]

/-- Witness for C8 at concrete inputs: a failing save skips only its
own article and the run still succeeds. -/
theorem claim_C8_witness :
    (run_article_analysis_pipeline
        ([(okOracle, sampleArticle)] ++
          (failingOracle, sampleArticle) :: [])).1.success = true ∧
    (run_article_analysis_pipeline
        ([(okOracle, sampleArticle)] ++
          (failingOracle, sampleArticle) :: [])).2 =
      (run_article_analysis_pipeline [(okOracle, sampleArticle)]).2 ++
        (run_article_analysis_pipeline ([] : List (ArticleOracle × Article))).2 ∧
    (run_article_analysis_pipeline
        ([(okOracle, sampleArticle)] ++
          (failingOracle, sampleArticle) :: [])).1.alerts =
      (run_article_analysis_pipeline [(okOracle, sampleArticle)]).1.alerts ++
        (run_article_analysis_pipeline
          ([] : List (ArticleOracle × Article))).1.alerts :=
  claim_C8 [(okOracle, sampleArticle)] [] failingOracle sampleArticle
    (Or.inr (Or.inr (Or.inr (Or.inr ⟨"firestore down", rfl⟩))))

/-- Two match lists differing only outside their scores. -/
def msFirst : List Match :=
  [{ document_id := "d1", score := mkRat 9 10, text := "t1", source := "s1" },
   { document_id := "d2", score := mkRat 85 100, text := "t2", source := "s2" }]

/-- The second match list with the same scores. -/
def msSecond : List Match :=
  [{ document_id := "e1", score := mkRat 9 10, text := "u1", source := "r1" },
   { document_id := "e2", score := mkRat 85 100, text := "u2", source := "r2" }]

/-- Witness for C9 at concrete inputs. -/
theorem claim_C9_witness : priority_of msFirst = priority_of msSecond :=
  claim_C9 msFirst msSecond rfl rfl

/-! ## C6: the extraction dedup loop -/

/-- Invariant of the dedup fold: every emitted term's key is in
`seen`, emitted keys are pairwise distinct, and every emitted term is
longer than 2 characters. -/
theorem dedup_fold_invariant (l : List String) (seen out : List String)
    (h1 : ∀ u ∈ out, pyLower (pyStrip u) ∈ seen)
    (h2 : out.Pairwise (fun t₁ t₂ => pyLower (pyStrip t₁) ≠ pyLower (pyStrip t₂)))
    (h3 : ∀ u ∈ out, 2 < u.length) :
    (∀ u ∈ (l.foldl dedupStep (seen, out)).2,
        pyLower (pyStrip u) ∈ (l.foldl dedupStep (seen, out)).1) ∧
    (l.foldl dedupStep (seen, out)).2.Pairwise
      (fun t₁ t₂ => pyLower (pyStrip t₁) ≠ pyLower (pyStrip t₂)) ∧
    (∀ u ∈ (l.foldl dedupStep (seen, out)).2, 2 < u.length) := by
  induction l generalizing seen out with
  | nil => exact ⟨h1, h2, h3⟩
  | cons term rest ih =>
    simp only [List.foldl_cons]
    by_cases hc : pyLower (pyStrip term) ∉ seen ∧ 2 < term.length
    · have hstep : dedupStep (seen, out) term =
          (pyLower (pyStrip term) :: seen, out ++ [term]) := by
        simp [dedupStep, hc]
      rw [hstep]
      apply ih
      · intro u hu
        rcases List.mem_append.mp hu with h | h
        · exact List.mem_cons_of_mem _ (h1 u h)
        · simp only [List.mem_singleton] at h
          subst h
          exact List.mem_cons_self _ _
      · rw [List.pairwise_append]
        refine ⟨h2, List.pairwise_singleton _ _, ?_⟩
        intro x hx y hy
        simp only [List.mem_singleton] at hy
        subst hy
        intro heq
        exact hc.1 (heq ▸ h1 x hx)
      · intro u hu
        rcases List.mem_append.mp hu with h | h
        · exact h3 u h
        · simp only [List.mem_singleton] at h
          subst h
          exact hc.2
    · have hstep : dedupStep (seen, out) term = (seen, out) := by
        simp only [dedupStep]
        rw [if_neg hc]
      rw [hstep]
      exact ih seen out h1 h2 h3

/-- The final term list is key-deduplicated and length-filtered. -/
theorem combine_and_dedup_spec (all_terms : List String) :
    (combine_and_dedup all_terms).Pairwise
      (fun t₁ t₂ => pyLower (pyStrip t₁) ≠ pyLower (pyStrip t₂)) ∧
    ∀ t ∈ combine_and_dedup all_terms, 2 < t.length := by
  have h := dedup_fold_invariant all_terms [] []
    (by intro u hu; exact absurd hu (List.not_mem_nil u))
    List.Pairwise.nil
    (by intro u hu; exact absurd hu (List.not_mem_nil u))
  exact ⟨h.2.1, h.2.2⟩

/-- C6: the term list produced by the extraction pipeline is
deduplicated case-insensitively after stripping, and every output term
has length greater than 2 (extraction_service.py, lines 154-166). -/
theorem claim_C6 (full_text_raw : String)
    (ner_results : Except String (List String))
    (gemini_resp : Except String String) (er : ExtractionResult)
    (h : run_extraction_pipeline full_text_raw ner_results gemini_resp =
      .ok er) :
    er.extracted_search_terms.Pairwise
      (fun t₁ t₂ => pyLower (pyStrip t₁) ≠ pyLower (pyStrip t₂)) ∧
    ∀ t ∈ er.extracted_search_terms, 2 < t.length := by
  unfold run_extraction_pipeline at h
  by_cases hft : full_text_raw = "" ∨ full_text_raw.length < 100
  · rw [if_pos hft] at h
    exact absurd h (by simp)
  · rw [if_neg hft] at h
    simp only [Except.ok.injEq] at h
    subst h
    exact combine_and_dedup_spec _

/-- A document text longer than 100 characters. -/
def longText : String :=
  String.mk (List.replicate 120 (Char.ofNat 97))

/-- The extraction result of the C6 witness inputs. -/
def sampleExtraction : ExtractionResult :=
  { full_text := longText,
    extracted_search_terms :=
      ["Section 12", "data privacy", "arbitration clause"],
    entity_count := 1, concept_count := 2 }

/-- Witness for C6 at concrete inputs: a duplicated NER entity and two
Gemini concepts yield a deduplicated, length-filtered term list. -/
theorem claim_C6_witness :
    sampleExtraction.extracted_search_terms.Pairwise
      (fun t₁ t₂ => pyLower (pyStrip t₁) ≠ pyLower (pyStrip t₂)) ∧
    ∀ t ∈ sampleExtraction.extracted_search_terms, 2 < t.length :=
  claim_C6 longText (.ok ["Section 12  ", "Section 12"])
    (.ok "data privacy, arbitration clause") sampleExtraction rfl

/-! ## C7: the web search returns capped, link-deduplicated results -/

/-- `dictInsert` preserves the two dictionary invariants: each key is
its value's link, and keys are pairwise distinct. -/
theorem dictInsert_invariant {d : List (String × Article)} {a : Article}
    (h1 : ∀ p ∈ d, p.1 = p.2.link)
    (h2 : d.Pairwise (fun p q => p.1 ≠ q.1)) :
    (∀ p ∈ dictInsert d a.link a, p.1 = p.2.link) ∧
    (dictInsert d a.link a).Pairwise (fun p q => p.1 ≠ q.1) := by
  unfold dictInsert
  by_cases hmem : d.any (fun p => decide (p.1 = a.link)) = true
  · rw [if_pos hmem]
    have hkey : ∀ p : String × Article,
        (if p.1 = a.link then (a.link, a) else p).1 = p.1 := by
      intro p
      split
      · simp only [*]
      · rfl
    constructor
    · intro p hp
      obtain ⟨q, hq, hfq⟩ := List.mem_map.mp hp
      subst hfq
      split
      · rfl
      · exact h1 q hq
    · refine List.pairwise_map.mpr (h2.imp_of_mem ?_)
      intro p q _ _ hpq
      rw [hkey, hkey]
      exact hpq
  · rw [if_neg hmem]
    have hnotin : ∀ p ∈ d, p.1 ≠ a.link := by
      intro p hp heq
      exact hmem (List.any_eq_true.mpr ⟨p, hp, by simp [heq]⟩)
    constructor
    · intro p hp
      rcases List.mem_append.mp hp with h | h
      · exact h1 p h
      · simp only [List.mem_singleton] at h
        subst h
        rfl
    · rw [List.pairwise_append]
      refine ⟨h2, List.pairwise_singleton _ _, ?_⟩
      intro x hx y hy
      simp only [List.mem_singleton] at hy
      subst hy
      exact hnotin x hx


/-- The dictionary built by the dedup fold keeps the invariants. -/
theorem dedup_fold_dict_invariant (articles : List Article)
    (d : List (String × Article))
    (h1 : ∀ p ∈ d, p.1 = p.2.link)
    (h2 : d.Pairwise (fun p q => p.1 ≠ q.1)) :
    (∀ p ∈ articles.foldl (fun d a => dictInsert d a.link a) d,
        p.1 = p.2.link) ∧
    (articles.foldl (fun d a => dictInsert d a.link a) d).Pairwise
      (fun p q => p.1 ≠ q.1) := by
  induction articles generalizing d with
  | nil => exact ⟨h1, h2⟩
  | cons a rest ih =>
    simp only [List.foldl_cons]
    obtain ⟨g1, g2⟩ := dictInsert_invariant h1 h2
    exact ih (dictInsert d a.link a) g1 g2

/-- The link-deduplicated article list has pairwise distinct links. -/
theorem dedupByLink_pairwise (articles : List Article) :
    (dedupByLink articles).Pairwise (fun a b => a.link ≠ b.link) := by
  unfold dedupByLink
  obtain ⟨h1, h2⟩ := dedup_fold_dict_invariant articles []
    (by intro p hp; exact absurd hp (List.not_mem_nil p))
    List.Pairwise.nil
  refine List.pairwise_map.mpr (h2.imp_of_mem ?_)
  intro p q hp hq hpq heq
  exact hpq ((h1 p hp).trans (heq.trans (h1 q hq).symm))

/-- C7: for every term list, recency window and result cap, the
article list returned by `scan_public_sources` has no two articles
with the same link, and its length never exceeds `max_results`
(google_service.py, lines 108-160). -/
theorem claim_C7 (fetch : FetchOracle) (extracted_terms : List String)
    (days_back max_results : Nat) :
    (scan_public_sources fetch extracted_terms days_back
        max_results).Pairwise (fun a b => a.link ≠ b.link) ∧
    (scan_public_sources fetch extracted_terms days_back
        max_results).length ≤ max_results := by
  unfold scan_public_sources
  by_cases he : extracted_terms.isEmpty
  · rw [if_pos he]
    exact ⟨List.Pairwise.nil, Nat.zero_le _⟩
  · rw [if_neg he]
    constructor
    · exact List.Pairwise.sublist (List.take_sublist _ _)
        (dedupByLink_pairwise _)
    · rw [List.length_take]
      exact min_le_left _ _

/-! ## C2: uploads beyond the limit are rejected without side
effects -/

/-- C2: a user whose profile records an upload count at or above the
limit gets an unsuccessful result with the upload-limit message, and
the stored state (profiles and indexed chunks) is untouched
(pipeline.py, lines 72-88; firebase_service.py, lines 126-140). -/
theorem claim_C2 (o : UploadOracles) (user_id filename : String)
    (s : Store) (p : Profile) (c l : Int)
    (hp : findDoc s.profiles user_id = some p)
    (hcount : p.doc_upload_count = some c)
    (hlimit : p.doc_upload_limit = some l)
    (hcl : l ≤ c) :
    (process_case_file_upload o user_id filename s).1.success = false ∧
    (process_case_file_upload o user_id filename s).1.error =
      some ("Upload limit reached (" ++ toString c ++ "/" ++
        toString l ++ ")") ∧
    (process_case_file_upload o user_id filename s).2 = s := by
  have h1 : get_profile_from_firestore s user_id = (p, s) := by
    unfold get_profile_from_firestore
    rw [hp]
  simp only [process_case_file_upload, h1, hcount, hlimit, Option.getD_some]
  rw [if_pos hcl]
  exact ⟨rfl, rfl, rfl⟩

/-- A profile already at its upload limit. -/
def fullProfile : Profile :=
  { user_id := "u1", monitored_doc_name := some "old.pdf",
    doc_upload_limit := some 1, doc_upload_count := some 5,
    extracted_search_terms := some ["term one", "term two", "term three"] }

/-- A store holding only that profile. -/
def fullStore : Store := { profiles := [("u1", fullProfile)], chunks := [] }

/-- Oracles whose extraction raises (never reached on the over-limit
path). -/
def stubUploadOracles : UploadOracles :=
  { pdf_text := .error "boom", ner_results := .error "boom",
    gemini_resp := .error "boom", chunking := fun _ => [],
    embeddings := fun _ => [] }

/-- Witness for C2 at concrete inputs: an over-limit upload fails and
leaves the store unchanged. -/
theorem claim_C2_witness :
    (process_case_file_upload stubUploadOracles "u1" "new.pdf"
        fullStore).1.success = false ∧
    (process_case_file_upload stubUploadOracles "u1" "new.pdf"
        fullStore).2 = fullStore :=
  ⟨(claim_C2 stubUploadOracles "u1" "new.pdf" fullStore fullProfile 5 1
      rfl rfl rfl (by decide)).1,
   (claim_C2 stubUploadOracles "u1" "new.pdf" fullStore fullProfile 5 1
      rfl rfl rfl (by decide)).2.2⟩

/-! ## C5: extraction must yield at least 3 terms -/

/-- On the under-limit path with a completed extraction whose
validation fails, the pipeline stops with that validation error. -/
theorem process_upload_validation_stop (o : UploadOracles)
    (user_id filename : String) (s : Store) (er : ExtractionResult)
    (msg : Option String)
    (hlt : (get_profile_from_firestore s user_id).1.doc_upload_count.getD 0 <
      (get_profile_from_firestore s user_id).1.doc_upload_limit.getD 1)
    (hex : run_extraction_for o = .ok er)
    (hv : validate_extraction_results er = (false, msg)) :
    (process_case_file_upload o user_id filename s).1.success = false ∧
    (process_case_file_upload o user_id filename s).1.error = msg := by
  simp only [process_case_file_upload]
  rw [if_neg (not_le.mpr hlt)]
  simp [hex, hv]

/-- C5: validated extraction results carry at least 3 terms; an
extraction with fewer than 3 terms fails validation and makes the
upload pipeline return an unsuccessful result with an error message
(extraction_service.py, lines 188-198; pipeline.py, lines 101-106). -/
theorem claim_C5 :
    (∀ er : ExtractionResult, (validate_extraction_results er).1 = true →
        3 ≤ er.extracted_search_terms.length) ∧
    (∀ (o : UploadOracles) (user_id filename : String) (s : Store)
        (er : ExtractionResult),
      (get_profile_from_firestore s user_id).1.doc_upload_count.getD 0 <
        (get_profile_from_firestore s user_id).1.doc_upload_limit.getD 1 →
      run_extraction_for o = .ok er →
      er.extracted_search_terms.length < 3 →
      (validate_extraction_results er).1 = false ∧
      (process_case_file_upload o user_id filename s).1.success = false ∧
      ∃ msg, (process_case_file_upload o user_id filename s).1.error =
        some msg) := by
  constructor
  · intro er hv
    unfold validate_extraction_results at hv
    by_cases h1 : er.full_text = ""
    · rw [if_pos h1] at hv
      exact absurd hv (by simp)
    · rw [if_neg h1] at hv
      by_cases h2 : er.extracted_search_terms.length < 3
      · rw [if_pos h2] at hv
        exact absurd hv (by simp)
      · omega
  · intro o user_id filename s er hlt hex hlen
    have hv : ∃ m, validate_extraction_results er = (false, some m) := by
      unfold validate_extraction_results
      by_cases h1 : er.full_text = ""
      · rw [if_pos h1]
        exact ⟨_, rfl⟩
      · rw [if_neg h1, if_pos hlen]
        exact ⟨_, rfl⟩
    obtain ⟨m, hm⟩ := hv
    have hstop := process_upload_validation_stop o user_id filename s er
      (some m) hlt hex hm
    exact ⟨by rw [hm], hstop.1, m, hstop.2⟩

/-- Upload oracles that extract successfully but produce only one
term. -/
def fewTermsOracles : UploadOracles :=
  { pdf_text := .ok longText, ner_results := .ok [],
    gemini_resp := .ok "abc", chunking := fun _ => [],
    embeddings := fun _ => [] }

/-- The extraction result of those oracles. -/
def fewTermsExtraction : ExtractionResult :=
  { full_text := longText, extracted_search_terms := ["abc"],
    entity_count := 0, concept_count := 1 }

/-- An empty store (the profile is created lazily with count 0). -/
def emptyStore : Store := { profiles := [], chunks := [] }

set_option maxRecDepth 100000 in
/-- Witness for C5 at concrete inputs: a three-term result validates,
and a one-term extraction stops the pipeline with an error. -/
theorem claim_C5_witness :
    3 ≤ sampleExtraction.extracted_search_terms.length ∧
    (validate_extraction_results fewTermsExtraction).1 = false ∧
    (process_case_file_upload fewTermsOracles "u2" "file.pdf"
        emptyStore).1.success = false :=
  ⟨claim_C5.1 sampleExtraction rfl,
   (claim_C5.2 fewTermsOracles "u2" "file.pdf" emptyStore
      fewTermsExtraction (by decide) rfl (by decide)).1,
   (claim_C5.2 fewTermsOracles "u2" "file.pdf" emptyStore
      fewTermsExtraction (by decide) rfl (by decide)).2.1⟩

/-! ## C1: the credential gate is stubbed out -/

/-- A request to the upload endpoint carrying no credential header but
a well-formed PDF file. -/
def noAuthRequest : UploadRequest :=
  { authHeader := none,
    files := [("file", { filename := "case.pdf", size := 100 })] }

/-- C1 (divergence): `verify_token` returns a fixed user id without
inspecting the request (firebase_service.py, lines 54-55), so the
upload endpoint never answers 401 for any request, and the pipeline
runs even for a request with no Authorization header at all
(app.py, lines 149-162). -/
theorem claim_C1_auth_never_401 :
    (∀ (o : UploadOracles) (s : Store) (req : UploadRequest),
        ((upload_case_file o s req).1.status == 401) = false) ∧
    noAuthRequest.authHeader = none ∧
    (upload_case_file stubUploadOracles emptyStore
        noAuthRequest).1.pipelineRan = true ∧
    (upload_case_file stubUploadOracles emptyStore
        noAuthRequest).1.status = 500 := by
  refine ⟨?_, rfl, rfl, rfl⟩
  intro o s req
  simp only [upload_case_file, verify_token]
  repeat first
  | rfl
  | split

/-! ## C10: analyze-articles input validation -/

/-- `checkFields` succeeds only when every required field is a
non-empty string. -/
theorem checkFields_none {i : Nat} {fields : List (String × PyVal)}
    {fs : List String} (h : checkFields i fields fs = none) :
    ∀ f ∈ fs, ∃ s, pyLookup fields f = some (.pystr s) ∧ s ≠ "" := by
  induction fs with
  | nil =>
    intro f hf
    exact absurd hf (List.not_mem_nil f)
  | cons f rest ih =>
    intro g hg
    unfold checkFields at h
    cases hl : pyLookup fields f with
    | none =>
      simp only [hl] at h
      exact absurd h (by simp)
    | some v =>
      simp only [hl] at h
      by_cases hb : (!(pyTruthy v) || !(pyIsStr v)) = true
      · rw [if_pos hb] at h
        exact absurd h (by simp)
      · rw [if_neg hb] at h
        simp only [Bool.or_eq_true, Bool.not_eq_true', not_or,
          Bool.ne_false_iff] at hb
        rcases List.mem_cons.mp hg with hg | hg
        · subst hg
          cases v with
          | pystr s =>
            refine ⟨s, hl, ?_⟩
            have hts := hb.1
            simp only [pyTruthy, bne_iff_ne, ne_eq] at hts
            exact hts
          | pynone => simp [pyIsStr] at hb
          | pyint n => simp [pyIsStr] at hb
          | pylist xs => simp [pyIsStr] at hb
          | pydict fs => simp [pyIsStr] at hb
        · exact ih h g hg


/-- `checkArticles` succeeds only when every entry is a dictionary
with non-empty string fields `title`, `link` and `snippet`. -/
theorem checkArticles_none {i : Nat} {xs : List PyVal}
    (h : checkArticles i xs = none) : ∀ a ∈ xs, entryValid a = true := by
  induction xs generalizing i with
  | nil =>
    intro a ha
    exact absurd ha (List.not_mem_nil a)
  | cons a rest ih =>
    intro b hb
    rcases a with _ | s | n | ys | fields
    · simp [checkArticles] at h
    · simp [checkArticles] at h
    · simp [checkArticles] at h
    · simp [checkArticles] at h
    · simp only [checkArticles] at h
      cases hc : checkFields i fields requiredFields with
      | some msg =>
        rw [hc] at h
        exact absurd h (by simp)
      | none =>
        rw [hc] at h
        rcases List.mem_cons.mp hb with hb | hb
        · subst hb
          have hf := checkFields_none hc
          simp only [entryValid, List.all_eq_true]
          intro f hfmem
          obtain ⟨s, hl, hs⟩ := hf f hfmem
          rw [hl]
          simpa using hs
        · exact ih h b hb

/-- With an empty, over-long, or malformed article list, validation
fails with some message. -/
theorem validate_articles_fails {xs : List PyVal}
    (h : xs = [] ∨ 20 < xs.length ∨ ∃ a ∈ xs, entryValid a = false) :
    ∃ m, validate_article_analysis_inputs (.pystr "test_user_local")
      (.pylist xs) = (false, some m) := by
  have hxs : xs = [] ∨ (xs ≠ [] ∧ 20 < xs.length) ∨
      (xs ≠ [] ∧ ¬(20 < xs.length) ∧ ∃ a ∈ xs, entryValid a = false) := by
    rcases h with h | h | h
    · exact Or.inl h
    · refine Or.inr (Or.inl ⟨?_, h⟩)
      intro he
      subst he
      simp at h
    · by_cases he : xs = []
      · subst he
        obtain ⟨a, ha, _⟩ := h
        exact absurd ha (List.not_mem_nil a)
      · by_cases hlen : 20 < xs.length
        · exact Or.inr (Or.inl ⟨he, hlen⟩)
        · exact Or.inr (Or.inr ⟨he, hlen, h⟩)
  rcases hxs with he | ⟨hne, hlen⟩ | ⟨hne, hlen, a, ha, hbad⟩
  · subst he
    exact ⟨"Articles must be a non-empty list", rfl⟩
  · unfold validate_article_analysis_inputs
    rw [if_neg (by decide)]
    have htr : (!(pyTruthy (.pylist xs)) || !(pyIsList (.pylist xs))) =
        false := by
      simp [pyTruthy, pyIsList, hne]
    rw [htr]
    simp only [Bool.false_eq_true, if_false, pyListItems]
    rw [if_neg (by omega), if_pos hlen]
    exact ⟨_, rfl⟩
  · unfold validate_article_analysis_inputs
    rw [if_neg (by decide)]
    have htr : (!(pyTruthy (.pylist xs)) || !(pyIsList (.pylist xs))) =
        false := by
      simp [pyTruthy, pyIsList, hne]
    rw [htr]
    simp only [Bool.false_eq_true, if_false, pyListItems]
    rw [if_neg (fun h0 => hne (List.length_eq_zero.mp h0)), if_neg hlen]
    cases hchk : checkArticles 0 xs with
    | some msg => exact ⟨msg, rfl⟩
    | none =>
      have hval := checkArticles_none hchk a ha
      rw [hval] at hbad
      exact absurd hbad (by simp)

/-- C10: the analyze-articles endpoint answers 400 with a `success:
false` envelope and runs no pipeline step whenever the request's
article list is empty, longer than 20 entries, or contains an entry
that is not a dictionary with non-empty string `title`, `link` and
`snippet` fields (app.py, lines 429-438; pipeline.py, lines
488-524). -/
theorem claim_C10 (pipeline : List PyVal → AnalysisResult)
    (req : AnalyzeRequest) (xs : List PyVal)
    (hart : requestArticles req = .ok (.pylist xs))
    (hbad : xs = [] ∨ 20 < xs.length ∨ ∃ a ∈ xs, entryValid a = false) :
    (analyze_articles pipeline req).status = 400 ∧
    (analyze_articles pipeline req).success = false ∧
    (analyze_articles pipeline req).pipelineRan = false := by
  obtain ⟨m, hm⟩ := validate_articles_fails hbad
  simp [analyze_articles, verify_token, hart, hm]

/-- A request whose JSON body holds an empty article list. -/
def emptyArticlesRequest : AnalyzeRequest :=
  { authHeader := some "Bearer token",
    json := some (.pydict [("articles", .pylist [])]) }

/-- A pipeline stub for the endpoint parameter. -/
def stubAnalysisPipeline : List PyVal → AnalysisResult := fun _ =>
  { success := true, articles_analyzed := 0, alerts_created := 0,
    alerts := [], error := none }

/-- Witness for C10 at a concrete input: an empty article list is
rejected with 400 before the pipeline runs. -/
theorem claim_C10_witness :
    (analyze_articles stubAnalysisPipeline emptyArticlesRequest).status =
      400 ∧
    (analyze_articles stubAnalysisPipeline emptyArticlesRequest).success =
      false ∧
    (analyze_articles stubAnalysisPipeline
        emptyArticlesRequest).pipelineRan = false :=
  claim_C10 stubAnalysisPipeline emptyArticlesRequest [] rfl (Or.inl rfl)

end LawyerUp
